import Mathlib

/-!
Verification of the cuda-oxide driver wrapper.

A shallow embedding of the pure decision logic of the `cuda-oxide` crate:
error-code translation (`src/error.rs`), device-memory views and their
length/alignment checks (`src/mem.rs`), stream operations and their
pending-store bookkeeping (`src/stream.rs`), the future state machine
(`src/future.rs`), kernel-parameter serialization (`src/kernel_params.rs`),
the JIT linker target table (`src/module.rs`) and the device-name
truncation logic (`src/device.rs`).

Native driver entry points (`sys::cu*`) are opaque foreign calls returning
integer status codes; they are modelled as explicit oracle arguments, so
every wrapper function is a pure function of its inputs and of the oracle
results.  Machine integers (`u64`, `u32`) are modelled as `Nat` with
explicit reduction modulo `2 ^ 64` where the source can wrap, and bytes as
`Nat` values below `256`.
-/

set_option autoImplicit false

namespace CudaOxide

/-- Outcome of running a Rust function that may `panic!`: either a fatal
halt carrying the panic message, or a returned value. -/
inductive Outcome (α : Type) where
  | fatal (msg : String)
  | ret (a : α)
  deriving DecidableEq, Repr

/-- Holds exactly when the outcome is a fatal halt (a Rust panic). -/
def Outcome.isFatal {α : Type} : Outcome α → Bool
  | .fatal _ => true
  | .ret _ => false

/-- The closed error enumeration of `src/error.rs` (`enum ErrorCode`),
one constructor per variant. -/
inductive ErrorCode where
  | Success
  | InvalidValue
  | OutOfMemory
  | NotInitialized
  | Deinitialized
  | ProfilerDisabled
  | ProfilerNotInitialized
  | ProfilerAlreadyStarted
  | ProfilerAlreadyStopped
  | StubLibrary
  | NoDevice
  | InvalidDevice
  | DeviceNotLicensed
  | InvalidImage
  | InvalidContext
  | ContextAlreadyCurrent
  | MapFailed
  | UnmapFailed
  | ArrayIsMapped
  | AlreadyMapped
  | NoBinaryForGpu
  | AlreadyAcquired
  | NotMapped
  | NotMappedAsArray
  | NotMappedAsPointer
  | EccUncorrectable
  | UnsupportedLimit
  | ContextAlreadyInUse
  | PeerAccessUnsupported
  | InvalidPtx
  | InvalidGraphicsContext
  | NvlinkUncorrectable
  | JitCompilerNotFound
  | UnsupportedPtxVersion
  | JitCompilationDisabled
  | InvalidSource
  | FileNotFound
  | SharedObjectSymbolNotFound
  | SharedObjectInitFailed
  | OperatingSystem
  | InvalidHandle
  | IllegalState
  | NotFound
  | NotReady
  | IllegalAddress
  | LaunchOutOfResources
  | LaunchTimeout
  | LaunchIncompatibleTexturing
  | PeerAccessAlreadyEnabled
  | PeerAccessNotEnabled
  | PrimaryContextActive
  | ContextIsDestroyed
  | Assert
  | TooManyPeers
  | HostMemoryAlreadyRegistered
  | HostMemoryNotRegistered
  | HardwareStackError
  | IllegalInstruction
  | MisalignedAddress
  | InvalidAddressSpace
  | InvalidPc
  | LaunchFailed
  | CooperativeLaunchTooLarge
  | NotPermitted
  | NotSupported
  | SystemNotReady
  | SystemDriverMismatch
  | CompatNotSupportedOnDevice
  | StreamCaptureUnsupported
  | StreamCaptureInvalidated
  | StreamCaptureMerge
  | StreamCaptureUnmatched
  | StreamCaptureUnjoined
  | StreamCaptureIsolation
  | StreamCaptureImplicit
  | CapturedEvent
  | StreamCaptureWrongThread
  | Timeout
  | GraphExecUpdateFailure
  | Unknown
  deriving DecidableEq, Repr

/-- The `#[repr(u32)]` discriminant of each `ErrorCode` variant, exactly
the numeric values assigned in `src/error.rs`. -/
def ErrorCode.code : ErrorCode → Nat
  | .Success => 0
  | .InvalidValue => 1
  | .OutOfMemory => 2
  | .NotInitialized => 3
  | .Deinitialized => 4
  | .ProfilerDisabled => 5
  | .ProfilerNotInitialized => 6
  | .ProfilerAlreadyStarted => 7
  | .ProfilerAlreadyStopped => 8
  | .StubLibrary => 34
  | .NoDevice => 100
  | .InvalidDevice => 101
  | .DeviceNotLicensed => 102
  | .InvalidImage => 200
  | .InvalidContext => 201
  | .ContextAlreadyCurrent => 202
  | .MapFailed => 205
  | .UnmapFailed => 206
  | .ArrayIsMapped => 207
  | .AlreadyMapped => 208
  | .NoBinaryForGpu => 209
  | .AlreadyAcquired => 210
  | .NotMapped => 211
  | .NotMappedAsArray => 212
  | .NotMappedAsPointer => 213
  | .EccUncorrectable => 214
  | .UnsupportedLimit => 215
  | .ContextAlreadyInUse => 216
  | .PeerAccessUnsupported => 217
  | .InvalidPtx => 218
  | .InvalidGraphicsContext => 219
  | .NvlinkUncorrectable => 220
  | .JitCompilerNotFound => 221
  | .UnsupportedPtxVersion => 222
  | .JitCompilationDisabled => 223
  | .InvalidSource => 300
  | .FileNotFound => 301
  | .SharedObjectSymbolNotFound => 302
  | .SharedObjectInitFailed => 303
  | .OperatingSystem => 304
  | .InvalidHandle => 400
  | .IllegalState => 401
  | .NotFound => 500
  | .NotReady => 600
  | .IllegalAddress => 700
  | .LaunchOutOfResources => 701
  | .LaunchTimeout => 702
  | .LaunchIncompatibleTexturing => 703
  | .PeerAccessAlreadyEnabled => 704
  | .PeerAccessNotEnabled => 705
  | .PrimaryContextActive => 708
  | .ContextIsDestroyed => 709
  | .Assert => 710
  | .TooManyPeers => 711
  | .HostMemoryAlreadyRegistered => 712
  | .HostMemoryNotRegistered => 713
  | .HardwareStackError => 714
  | .IllegalInstruction => 715
  | .MisalignedAddress => 716
  | .InvalidAddressSpace => 717
  | .InvalidPc => 718
  | .LaunchFailed => 719
  | .CooperativeLaunchTooLarge => 720
  | .NotPermitted => 800
  | .NotSupported => 801
  | .SystemNotReady => 802
  | .SystemDriverMismatch => 803
  | .CompatNotSupportedOnDevice => 804
  | .StreamCaptureUnsupported => 900
  | .StreamCaptureInvalidated => 901
  | .StreamCaptureMerge => 902
  | .StreamCaptureUnmatched => 903
  | .StreamCaptureUnjoined => 904
  | .StreamCaptureIsolation => 905
  | .StreamCaptureImplicit => 906
  | .CapturedEvent => 907
  | .StreamCaptureWrongThread => 908
  | .Timeout => 909
  | .GraphExecUpdateFailure => 910
  | .Unknown => 999

/-- The derived `ErrorCode::try_from_primitive`: the variant whose
discriminant is the given status, if any. -/
def ErrorCode.fromCode : Nat → Option ErrorCode
  | 0 => some .Success
  | 1 => some .InvalidValue
  | 2 => some .OutOfMemory
  | 3 => some .NotInitialized
  | 4 => some .Deinitialized
  | 5 => some .ProfilerDisabled
  | 6 => some .ProfilerNotInitialized
  | 7 => some .ProfilerAlreadyStarted
  | 8 => some .ProfilerAlreadyStopped
  | 34 => some .StubLibrary
  | 100 => some .NoDevice
  | 101 => some .InvalidDevice
  | 102 => some .DeviceNotLicensed
  | 200 => some .InvalidImage
  | 201 => some .InvalidContext
  | 202 => some .ContextAlreadyCurrent
  | 205 => some .MapFailed
  | 206 => some .UnmapFailed
  | 207 => some .ArrayIsMapped
  | 208 => some .AlreadyMapped
  | 209 => some .NoBinaryForGpu
  | 210 => some .AlreadyAcquired
  | 211 => some .NotMapped
  | 212 => some .NotMappedAsArray
  | 213 => some .NotMappedAsPointer
  | 214 => some .EccUncorrectable
  | 215 => some .UnsupportedLimit
  | 216 => some .ContextAlreadyInUse
  | 217 => some .PeerAccessUnsupported
  | 218 => some .InvalidPtx
  | 219 => some .InvalidGraphicsContext
  | 220 => some .NvlinkUncorrectable
  | 221 => some .JitCompilerNotFound
  | 222 => some .UnsupportedPtxVersion
  | 223 => some .JitCompilationDisabled
  | 300 => some .InvalidSource
  | 301 => some .FileNotFound
  | 302 => some .SharedObjectSymbolNotFound
  | 303 => some .SharedObjectInitFailed
  | 304 => some .OperatingSystem
  | 400 => some .InvalidHandle
  | 401 => some .IllegalState
  | 500 => some .NotFound
  | 600 => some .NotReady
  | 700 => some .IllegalAddress
  | 701 => some .LaunchOutOfResources
  | 702 => some .LaunchTimeout
  | 703 => some .LaunchIncompatibleTexturing
  | 704 => some .PeerAccessAlreadyEnabled
  | 705 => some .PeerAccessNotEnabled
  | 708 => some .PrimaryContextActive
  | 709 => some .ContextIsDestroyed
  | 710 => some .Assert
  | 711 => some .TooManyPeers
  | 712 => some .HostMemoryAlreadyRegistered
  | 713 => some .HostMemoryNotRegistered
  | 714 => some .HardwareStackError
  | 715 => some .IllegalInstruction
  | 716 => some .MisalignedAddress
  | 717 => some .InvalidAddressSpace
  | 718 => some .InvalidPc
  | 719 => some .LaunchFailed
  | 720 => some .CooperativeLaunchTooLarge
  | 800 => some .NotPermitted
  | 801 => some .NotSupported
  | 802 => some .SystemNotReady
  | 803 => some .SystemDriverMismatch
  | 804 => some .CompatNotSupportedOnDevice
  | 900 => some .StreamCaptureUnsupported
  | 901 => some .StreamCaptureInvalidated
  | 902 => some .StreamCaptureMerge
  | 903 => some .StreamCaptureUnmatched
  | 904 => some .StreamCaptureUnjoined
  | 905 => some .StreamCaptureIsolation
  | 906 => some .StreamCaptureImplicit
  | 907 => some .CapturedEvent
  | 908 => some .StreamCaptureWrongThread
  | 909 => some .Timeout
  | 910 => some .GraphExecUpdateFailure
  | 999 => some .Unknown
  | _ => none

/-- The `CudaResult<T>` alias from `src/error.rs`. -/
abbrev CudaResult (α : Type) := Except ErrorCode α

instance {ε α : Type} [DecidableEq ε] [DecidableEq α] :
    DecidableEq (Except ε α) := fun x y =>
  match x, y with
  | .ok a, .ok b => decidable_of_iff (a = b) (by simp)
  | .ok _, .error _ => isFalse (by simp)
  | .error _, .ok _ => isFalse (by simp)
  | .error d, .error e => decidable_of_iff (d = e) (by simp)

/-- The `cuda_error` translation from `src/error.rs`: `0` is success, any
other status is translated through `try_from_primitive`, defaulting to
`Unknown`. -/
def cuda_error (input : Nat) : CudaResult Unit :=
  if input = 0 then .ok ()
  else .error ((ErrorCode.fromCode input).getD .Unknown)

/-- The modulus `2 ^ 64` of Rust `u64` arithmetic. -/
def u64Size : Nat := 18446744073709551616

/-- The `DevicePtr` view from `src/mem.rs`.  `handle` is the identity of
the shared `Rc<Handle>`, `ctx` the address of the owning context
(`handle.context`, compared with `std::ptr::eq` in `copy_to`), `inner`
the device address and `len` the byte length. -/
structure DevicePtr where
  handle : Nat
  ctx : Nat
  inner : Nat
  len : Nat
  deriving DecidableEq, Repr

/-- The `DevicePtr::copy_to` operation.  The native copies `cuMemcpy`
(same context) and `cuMemcpyPeer` (cross context) are oracles taking the
same arguments the source passes (`dst, src, count` respectively
`dst, dstCtx, src, srcCtx, count`). -/
def DevicePtr.copy_to (self target : DevicePtr)
    (memcpy : Nat → Nat → Nat → CudaResult Unit)
    (memcpyPeer : Nat → Nat → Nat → Nat → Nat → CudaResult Unit) :
    Outcome (CudaResult Unit) :=
  if self.len > target.len then .fatal "overflow in DevicePtr::copy_to"
  else if self.len < target.len then .fatal "underflow in DevicePtr::copy_to"
  else if self.ctx = target.ctx then
    .ret (memcpy target.inner self.inner self.len)
  else
    .ret (memcpyPeer target.inner target.ctx self.inner self.ctx self.len)

/-- The `DevicePtr::store` operation: host-to-device copy of a byte slice,
with the native `cuMemcpyHtoD_v2` as an oracle. -/
def DevicePtr.store (self : DevicePtr) (data : List Nat)
    (memcpyHtoD : Nat → List Nat → Nat → CudaResult Unit) :
    Outcome (CudaResult Unit) :=
  if data.length > self.len then .fatal "overflow in DevicePtr::store"
  else if data.length < self.len then .fatal "underflow in DevicePtr::store"
  else .ret (memcpyHtoD self.inner data self.len)

/-- The `DevicePtr::subslice` operation: bounds-checked aliasing view.
The new device address is computed in `u64` arithmetic. -/
def DevicePtr.subslice (self : DevicePtr) (from_ to_ : Nat) : Outcome DevicePtr :=
  if from_ > self.len ∨ from_ > to_ ∨ to_ > self.len then
    .fatal "overflow in DevicePtr::subslice"
  else
    .ret { handle := self.handle, ctx := self.ctx,
           inner := (self.inner + from_) % u64Size, len := to_ - from_ }

/-- The `DevicePtr::memset_d8` operation: no alignment requirement, the
element count is the byte length. -/
def DevicePtr.memset_d8 (self : DevicePtr) (data : Nat)
    (memsetD8 : Nat → Nat → Nat → CudaResult Unit) : Outcome (CudaResult Unit) :=
  .ret (memsetD8 self.inner data self.len)

/-- The `DevicePtr::memset_d16` operation: requires an even byte length,
fills `len / 2` two-byte elements. -/
def DevicePtr.memset_d16 (self : DevicePtr) (data : Nat)
    (memsetD16 : Nat → Nat → Nat → CudaResult Unit) : Outcome (CudaResult Unit) :=
  if self.len % 2 ≠ 0 then .fatal "alignment failure in DevicePtr::memset_d16"
  else .ret (memsetD16 self.inner data (self.len / 2))

/-- The `DevicePtr::memset_d32` operation: requires a length divisible by
four, fills `len / 4` four-byte elements. -/
def DevicePtr.memset_d32 (self : DevicePtr) (data : Nat)
    (memsetD32 : Nat → Nat → Nat → CudaResult Unit) : Outcome (CudaResult Unit) :=
  if self.len % 4 ≠ 0 then .fatal "alignment failure in DevicePtr::memset_d32"
  else .ret (memsetD32 self.inner data (self.len / 4))

/-- The little-endian byte representation of `v` in `n` bytes
(`to_le_bytes` on an `n`-byte unsigned integer). -/
def leBytes : Nat → Nat → List Nat
  | 0, _ => []
  | n + 1, v => v % 256 :: leBytes n (v / 256)

/-- Recombines a little-endian byte list into the value it represents. -/
def fromLE : List Nat → Nat
  | [] => 0
  | b :: rest => b + 256 * fromLE rest

/-- The little-endian byte representation of a signed `w`-byte integer:
`to_le_bytes` serializes the two's-complement bits. -/
def signedLeBytes (w : Nat) (v : Int) : List Nat :=
  leBytes w (v % ((2 : Int) ^ (8 * w))).toNat

/-- A kernel-parameter value: one constructor per `KernelParameters` impl
in `src/kernel_params.rs`.  Scalar constructors carry the machine value
(with floats represented by their IEEE bit pattern, since `to_le_bytes`
serializes exactly those bits); `devicePtr` carries the device address
pushed by the `DevicePtr` and `&DeviceBox` impls, `bytes` the raw buffer
of the `&[u8]`/`Vec<u8>` impls, `arr` is a fixed-size array `[T; N]`,
`box` a `Box<T>`, `unit` the `()` impl and `tup` a tuple. -/
inductive KParam where
  | u8 (v : Nat)
  | u16 (v : Nat)
  | u32 (v : Nat)
  | u64 (v : Nat)
  | usize (v : Nat)
  | i8 (v : Int)
  | i16 (v : Int)
  | i32 (v : Int)
  | i64 (v : Int)
  | f32 (bits : Nat)
  | f64 (bits : Nat)
  | devicePtr (addr : Nat)
  | bytes (data : List Nat)
  | arr (elems : List KParam)
  | box (inner : KParam)
  | unit
  | tup (elems : List KParam)

mutual

/-- The `KernelParameters::params` method: pushes the byte buffers for one
parameter onto `out` (Rust mutates `out : &mut Vec<Vec<u8>>`; the model
returns the new vector). -/
def KParam.params : KParam → List (List Nat) → List (List Nat)
  | .u8 v, out => out ++ [leBytes 1 v]
  | .u16 v, out => out ++ [leBytes 2 v]
  | .u32 v, out => out ++ [leBytes 4 v]
  | .u64 v, out => out ++ [leBytes 8 v]
  | .usize v, out => out ++ [leBytes 8 v]
  | .i8 v, out => out ++ [signedLeBytes 1 v]
  | .i16 v, out => out ++ [signedLeBytes 2 v]
  | .i32 v, out => out ++ [signedLeBytes 4 v]
  | .i64 v, out => out ++ [signedLeBytes 8 v]
  | .f32 bits, out => out ++ [leBytes 4 bits]
  | .f64 bits, out => out ++ [leBytes 8 bits]
  | .devicePtr addr, out => out ++ [leBytes 8 addr]
  | .bytes data, out => out ++ [data]
  | .arr es, out => KParam.paramsSeq es out
  | .box inner, out => KParam.params inner out
  | .unit, out => out
  | .tup es, out => KParam.paramsSeq es out

/-- The `for x in self { x.params(out) }` loop of the array impl and the
field-by-field expansion of the `tuple_impls!` implementations. -/
def KParam.paramsSeq : List KParam → List (List Nat) → List (List Nat)
  | [], out => out
  | e :: rest, out => KParam.paramsSeq rest (KParam.params e out)

end

/-- The `WaitValueMode` enumeration from `src/stream.rs`. -/
inductive WaitValueMode where
  | Geq
  | Eq
  | And
  | Nor
  deriving DecidableEq, Repr

/-- The `#[repr(u32)]` discriminant of each `WaitValueMode` variant. -/
def WaitValueMode.code : WaitValueMode → Nat
  | .Geq => 0
  | .Eq => 1
  | .And => 2
  | .Nor => 3

/-- The `Dim3` triple from `src/dim3.rs`, a `(u32, u32, u32)`. -/
structure Dim3 where
  x : Nat
  y : Nat
  z : Nat
  deriving DecidableEq, Repr

/-- The `Stream` from `src/stream.rs`.  The native queue handle is opaque;
the model keeps the `pending_stores` buffer list, the only field whose
evolution the wrapper itself controls. -/
structure Stream where
  pendingStores : List (List Nat)
  deriving DecidableEq, Repr

/-- The `Stream::sync` operation: on native success clears
`pending_stores`; on native failure the `?` operator returns the error
early, leaving the stream untouched. -/
def Stream.sync (nativeSync : CudaResult Unit) (s : Stream) :
    CudaResult Unit × Stream :=
  match nativeSync with
  | .ok () => (.ok (), { pendingStores := [] })
  | .error e => (.error e, s)

/-- The `Stream::is_synced` poll: translates the native `cuStreamQuery`
status, remapping `NotReady` to `Ok(false)`.  It takes `&self`, so it
cannot touch `pending_stores` at all. -/
def Stream.is_synced (queryStatus : Nat) : CudaResult Bool :=
  match cuda_error queryStatus with
  | .ok _ => .ok true
  | .error .NotReady => .ok false
  | .error e => .error e

/-- The `Stream::wait_32` operation: requires a view of at least four
bytes, then calls the native wait with `mode as u32 | flush-bit`. -/
def Stream.wait_32 (addr : DevicePtr) (value : Nat) (mode : WaitValueMode)
    (flush : Bool) (nativeWait : Nat → Nat → Nat → CudaResult Unit)
    (s : Stream) : Outcome (CudaResult Unit × Stream) :=
  if addr.len < 4 then .fatal "overflow in Stream::wait_32"
  else
    .ret (nativeWait addr.inner value
      (Nat.lor mode.code (if flush then 2 ^ 30 else 0)), s)

/-- The `Stream::wait_64` operation: same as `wait_32` for eight-byte
values. -/
def Stream.wait_64 (addr : DevicePtr) (value : Nat) (mode : WaitValueMode)
    (flush : Bool) (nativeWait : Nat → Nat → Nat → CudaResult Unit)
    (s : Stream) : Outcome (CudaResult Unit × Stream) :=
  if addr.len < 8 then .fatal "overflow in Stream::wait_64"
  else
    .ret (nativeWait addr.inner value
      (Nat.lor mode.code (if flush then 2 ^ 30 else 0)), s)

/-- The `Stream::write_32` operation: requires a view of at least four
bytes, then calls the native write with the barrier flag. -/
def Stream.write_32 (addr : DevicePtr) (value : Nat) (noMemoryBarrier : Bool)
    (nativeWrite : Nat → Nat → Nat → CudaResult Unit) (s : Stream) :
    Outcome (CudaResult Unit × Stream) :=
  if addr.len < 4 then .fatal "overflow in Stream::write_32"
  else .ret (nativeWrite addr.inner value (if noMemoryBarrier then 1 else 0), s)

/-- The `Stream::write_64` operation: same as `write_32` for eight-byte
values. -/
def Stream.write_64 (addr : DevicePtr) (value : Nat) (noMemoryBarrier : Bool)
    (nativeWrite : Nat → Nat → Nat → CudaResult Unit) (s : Stream) :
    Outcome (CudaResult Unit × Stream) :=
  if addr.len < 8 then .fatal "overflow in Stream::write_64"
  else .ret (nativeWrite addr.inner value (if noMemoryBarrier then 1 else 0), s)

/-- The `Stream::callback` registration: the native `cuLaunchHostFunc`
result is an oracle; the stream state is not touched. -/
def Stream.callback (nativeLaunchHostFunc : CudaResult Unit) (s : Stream) :
    CudaResult Unit × Stream :=
  (nativeLaunchHostFunc, s)

/-- The `Stream::launch` operation: serializes the parameter pack into the
flat buffer list and hands it, with the grid/block dimensions and shared
memory size, to the native `cuLaunchKernel` oracle. -/
def Stream.launch (f : Nat) (gridDim blockDim : Dim3) (sharedMemSize : Nat)
    (parameters : KParam)
    (nativeLaunch : Nat → Dim3 → Dim3 → Nat → List (List Nat) → CudaResult Unit)
    (s : Stream) : CudaResult Unit × Stream :=
  (nativeLaunch f gridDim blockDim sharedMemSize (KParam.params parameters []), s)

/-- The `InteriorState` cell of `src/future.rs`: `Waiting`, completed
(`Some(value)`) or consumed (`Taken`). -/
inductive InteriorState (α : Type) where
  | Waiting
  | Some (val : α)
  | Taken
  deriving DecidableEq, Repr

/-- The poll result of a Rust `Future`. -/
inductive PollResult (α : Type) where
  | Pending
  | Ready (val : α)
  deriving DecidableEq, Repr

/-- One call of `CudaFuture::poll`, acting on the shared cell.  In the
`Waiting` state the registration of the completion callback
(`Stream::callback`, a native call) is an oracle result; registration
failure returns the error without changing the cell.  Returns the updated
cell and the poll result. -/
def pollStep (s : InteriorState (CudaResult Unit)) (cbReg : CudaResult Unit) :
    Outcome (InteriorState (CudaResult Unit) × PollResult (CudaResult Unit)) :=
  match s with
  | .Taken => .fatal "over polled CudaFuture (do you need to fuse?)"
  | .Some x => .ret (.Taken, .Ready x)
  | .Waiting =>
    match cbReg with
    | .ok _ => .ret (.Waiting, .Pending)
    | .error e => .ret (.Waiting, .Ready (.error e))

/-- The completion callback enqueued by `poll`: transitions the cell to
`Some(Ok(()))` only if it is still `Waiting`. -/
def callbackStep (s : InteriorState (CudaResult Unit)) :
    InteriorState (CudaResult Unit) :=
  match s with
  | .Waiting => .Some (.ok ())
  | x => x

/-- The compute-capability pairs accepted by `Linker::new` in
`src/module.rs`. -/
def supportedTargets : List (Nat × Nat) :=
  [(2, 0), (2, 1), (3, 0), (3, 2), (3, 5), (3, 7), (5, 0), (5, 2), (5, 3),
   (6, 0), (6, 1), (6, 2), (7, 0), (7, 2), (7, 5), (8, 0), (8, 6)]

/-- The target match in `Linker::new`: maps a `(major, minor)` pair to the
`CU_TARGET_COMPUTE_*` enumeration value, or nothing for the `(_, _)`
fallback arm. -/
def targetFor : Nat → Nat → Option Nat
  | 2, 0 => some 20
  | 2, 1 => some 21
  | 3, 0 => some 30
  | 3, 2 => some 32
  | 3, 5 => some 35
  | 3, 7 => some 37
  | 5, 0 => some 50
  | 5, 2 => some 52
  | 5, 3 => some 53
  | 6, 0 => some 60
  | 6, 1 => some 61
  | 6, 2 => some 62
  | 7, 0 => some 70
  | 7, 2 => some 72
  | 7, 5 => some 75
  | 8, 0 => some 80
  | 8, 6 => some 86
  | _, _ => none

/-- The result of `Linker::new`, distinguishing the early
unsupported-version return (no native call is made) from an invocation of
the native `cuLinkCreate_v2`. -/
inductive LinkerNewOutcome where
  | earlyReturn (e : ErrorCode)
  | viaNative (r : CudaResult Unit)
  deriving DecidableEq, Repr

/-- The control flow of `Linker::new` that the target table decides: an
unrecognized compute-capability pair returns
`Err(ErrorCode::UnsupportedPtxVersion)` before the native link-session
creation; a recognized pair reaches the native call with the resolved
target value. -/
def Linker.new (major minor : Nat)
    (nativeLinkCreate : Nat → CudaResult Unit) : LinkerNewOutcome :=
  match targetFor major minor with
  | none => .earlyReturn .UnsupportedPtxVersion
  | some t => .viaNative (nativeLinkCreate t)

/-- The `Iterator::position` combinator used by `Device::name`: index of
the first element satisfying the predicate. -/
def position (p : Nat → Bool) : List Nat → Option Nat
  | [] => none
  | x :: rest => if p x then some 0 else (position p rest).map (· + 1)

/-- The `Device::name` post-processing from `src/device.rs`: the native
call fills a 256-byte buffer `buf`; the result is the lossy UTF-8 decoding
(`String::from_utf8_lossy`, part of the Rust standard library and passed
here as the oracle `decode`) of `buf[..position-of-first-NUL]`, where a
missing NUL yields the empty prefix (`unwrap_or(0)`). -/
def Device.name (decode : List Nat → String) (buf : List Nat) : String :=
  decode (buf.take ((position (fun x => x == 0) buf).getD 0))

/-! Theorems. -/

theorem fromCode_code (e : ErrorCode) : ErrorCode.fromCode e.code = some e := by
  cases e <;> rfl

set_option maxHeartbeats 2000000 in
theorem code_of_fromCode {s : Nat} {e : ErrorCode}
    (h : ErrorCode.fromCode s = some e) : e.code = s := by
  unfold ErrorCode.fromCode at h
  split at h <;>
    first
      | exact Option.noConfusion h
      | (injection h with h2; subst h2; rfl)

/-- C7: `cuda_error` is total on 32-bit statuses: `0` maps to `Ok(())`, a
nonzero status carried by some enumeration member maps to `Err` of exactly
that member, and a nonzero status carried by no member maps to
`Err(Unknown)`. -/
theorem cuda_error_total (status : Nat) (hs : status < 2 ^ 32) :
    (status = 0 → cuda_error status = .ok ()) ∧
    (∀ e : ErrorCode, status ≠ 0 → e.code = status →
      cuda_error status = .error e) ∧
    ((∀ e : ErrorCode, e.code ≠ status) → status ≠ 0 →
      cuda_error status = .error .Unknown) := by
  refine ⟨fun h0 => by simp [cuda_error, h0], ?_, ?_⟩
  · intro e h0 hc
    subst hc
    simp [cuda_error, h0, fromCode_code]
  · intro hall h0
    cases hfc : ErrorCode.fromCode status with
    | none => simp [cuda_error, h0, hfc]
    | some e => exact absurd (code_of_fromCode hfc) (hall e)

/-- Witness for `cuda_error_total` at the concrete statuses `0`, `1` and
`42` (the last being outside the enumeration). -/
theorem cuda_error_total_witness :
    cuda_error 0 = .ok () ∧
    cuda_error 1 = .error .InvalidValue ∧
    cuda_error 42 = .error .Unknown :=
  ⟨(cuda_error_total 0 (by norm_num)).1 rfl,
   (cuda_error_total 1 (by norm_num)).2.1 .InvalidValue (by decide) (by decide),
   (cuda_error_total 42 (by norm_num)).2.2 (fun e => by cases e <;> decide)
     (by decide)⟩

/-- C1: `copy_to` (and `store` for a host byte slice) halts with a fatal
panic exactly when the source byte length differs from the destination
byte length, in either direction; on equal lengths it invokes the native
copy and returns its result. -/
theorem copy_to_store_length_spec (self target : DevicePtr)
    (memcpy : Nat → Nat → Nat → CudaResult Unit)
    (memcpyPeer : Nat → Nat → Nat → Nat → Nat → CudaResult Unit)
    (data : List Nat) (memcpyHtoD : Nat → List Nat → Nat → CudaResult Unit) :
    ((DevicePtr.copy_to self target memcpy memcpyPeer).isFatal = true ↔
      self.len ≠ target.len) ∧
    (self.len = target.len →
      DevicePtr.copy_to self target memcpy memcpyPeer =
        .ret (if self.ctx = target.ctx then
                memcpy target.inner self.inner self.len
              else
                memcpyPeer target.inner target.ctx self.inner self.ctx self.len)) ∧
    ((DevicePtr.store self data memcpyHtoD).isFatal = true ↔
      data.length ≠ self.len) ∧
    (data.length = self.len →
      DevicePtr.store self data memcpyHtoD =
        .ret (memcpyHtoD self.inner data self.len)) := by
  refine ⟨?_, ?_, ?_, ?_⟩
  · unfold DevicePtr.copy_to
    split
    · simp [Outcome.isFatal]; omega
    · split
      · simp [Outcome.isFatal]; omega
      · split <;> (simp [Outcome.isFatal]; omega)
  · intro h
    unfold DevicePtr.copy_to
    rw [if_neg (by omega), if_neg (by omega)]
    split <;> simp
  · unfold DevicePtr.store
    split
    · simp [Outcome.isFatal]; omega
    · split <;> (simp [Outcome.isFatal]; omega)
  · intro h
    unfold DevicePtr.store
    rw [if_neg (by omega), if_neg (by omega)]

/-- Witness for `copy_to_store_length_spec` on concrete 8-byte views and
an 8-byte host buffer in the same context. -/
theorem copy_to_store_length_spec_witness :
    DevicePtr.copy_to ⟨1, 1, 1000, 8⟩ ⟨1, 1, 2000, 8⟩
        (fun _ _ _ => .ok ()) (fun _ _ _ _ _ => .ok ()) = .ret (.ok ()) ∧
    DevicePtr.store ⟨1, 1, 1000, 8⟩ (List.replicate 8 0)
        (fun _ _ _ => .ok ()) = .ret (.ok ()) := by
  have h := copy_to_store_length_spec ⟨1, 1, 1000, 8⟩ ⟨1, 1, 2000, 8⟩
    (fun _ _ _ => .ok ()) (fun _ _ _ _ _ => .ok ())
    (List.replicate 8 0) (fun _ _ _ => .ok ())
  exact ⟨by rw [h.2.1 rfl]; rfl, by rw [h.2.2.2 (by decide)]⟩

/-- C4: `subslice(from, to)` halts with a fatal panic unless
`from ≤ to ∧ to ≤ len`; otherwise it returns an aliasing view sharing the
same handle, at device address `parent + from` (in `u64` arithmetic) with
length `to - from`; composing two in-bounds subslices yields exactly the
subslice of the parent at the composed byte range. -/
theorem subslice_spec (d : DevicePtr) (a b : Nat) :
    (¬(a ≤ b ∧ b ≤ d.len) →
      d.subslice a b = .fatal "overflow in DevicePtr::subslice") ∧
    (a ≤ b → b ≤ d.len →
      d.subslice a b = .ret { handle := d.handle, ctx := d.ctx,
                              inner := (d.inner + a) % u64Size,
                              len := b - a }) ∧
    (∀ c e : Nat, a ≤ b → b ≤ d.len → c ≤ e → e ≤ b - a →
      ∃ v w : DevicePtr, d.subslice a b = .ret v ∧ v.subslice c e = .ret w ∧
        d.subslice (a + c) (a + e) = .ret w) := by
  refine ⟨?_, ?_, ?_⟩
  · intro h
    unfold DevicePtr.subslice
    rw [if_pos (by omega)]
  · intro h1 h2
    unfold DevicePtr.subslice
    rw [if_neg (by omega)]
  · intro c e hab hbl hce hel
    refine ⟨{ handle := d.handle, ctx := d.ctx,
              inner := (d.inner + a) % u64Size, len := b - a },
            { handle := d.handle, ctx := d.ctx,
              inner := (d.inner + (a + c)) % u64Size,
              len := (a + e) - (a + c) }, ?_, ?_, ?_⟩
    · unfold DevicePtr.subslice
      rw [if_neg (by omega)]
    · unfold DevicePtr.subslice
      rw [if_neg (show ¬(c > b - a ∨ c > e ∨ e > b - a) by omega)]
      simp only [Outcome.ret.injEq, DevicePtr.mk.injEq, u64Size]
      refine ⟨trivial, trivial, by omega, by omega⟩
    · unfold DevicePtr.subslice
      rw [if_neg (by omega)]

/-- Witness for `subslice_spec`: slicing a 16-byte view to `[4, 12)` and
then to `[2, 6)` equals slicing the parent to `[6, 10)`. -/
theorem subslice_spec_witness :
    ∃ v w : DevicePtr,
      DevicePtr.subslice ⟨1, 1, 1000, 16⟩ 4 12 = .ret v ∧
      v.subslice 2 6 = .ret w ∧
      DevicePtr.subslice ⟨1, 1, 1000, 16⟩ 6 10 = .ret w :=
  (subslice_spec ⟨1, 1, 1000, 16⟩ 4 12).2.2 2 6 (by decide) (by decide)
    (by decide) (by decide)

/-- C5: `memset_d16` halts with a fatal panic exactly when the byte length
is odd, `memset_d32` exactly when it is not a multiple of four; on an
aligned length each invokes the native fill with `len / 2`
(respectively `len / 4`) elements, which covers every lane of the
region. -/
theorem memset_alignment_spec (d : DevicePtr) (v16 v32 : Nat)
    (m16 m32 : Nat → Nat → Nat → CudaResult Unit) :
    ((d.memset_d16 v16 m16).isFatal = true ↔ d.len % 2 ≠ 0) ∧
    (d.len % 2 = 0 →
      d.memset_d16 v16 m16 = .ret (m16 d.inner v16 (d.len / 2)) ∧
      2 * (d.len / 2) = d.len) ∧
    ((d.memset_d32 v32 m32).isFatal = true ↔ d.len % 4 ≠ 0) ∧
    (d.len % 4 = 0 →
      d.memset_d32 v32 m32 = .ret (m32 d.inner v32 (d.len / 4)) ∧
      4 * (d.len / 4) = d.len) := by
  refine ⟨?_, fun h => ⟨?_, by omega⟩, ?_, fun h => ⟨?_, by omega⟩⟩
  · unfold DevicePtr.memset_d16
    split <;> simp_all [Outcome.isFatal]
  · unfold DevicePtr.memset_d16
    rw [if_neg (by omega)]
  · unfold DevicePtr.memset_d32
    split <;> simp_all [Outcome.isFatal]
  · unfold DevicePtr.memset_d32
    rw [if_neg (by omega)]

/-- Witness for `memset_alignment_spec` on a 12-byte view: `memset_d16`
fills 6 elements and `memset_d32` fills 3. -/
theorem memset_alignment_spec_witness :
    DevicePtr.memset_d16 ⟨1, 1, 1000, 12⟩ 7
        (fun a _ n => if a = 1000 ∧ n = 6 then .ok () else .error .Unknown) =
      .ret (.ok ()) ∧
    DevicePtr.memset_d32 ⟨1, 1, 1000, 12⟩ 7
        (fun a _ n => if a = 1000 ∧ n = 3 then .ok () else .error .Unknown) =
      .ret (.ok ()) := by
  have h16 := (memset_alignment_spec ⟨1, 1, 1000, 12⟩ 7 7
    (fun a _ n => if a = 1000 ∧ n = 6 then .ok () else .error .Unknown)
    (fun a _ n => if a = 1000 ∧ n = 3 then .ok () else .error .Unknown)).2.1
    (by decide)
  have h32 := (memset_alignment_spec ⟨1, 1, 1000, 12⟩ 7 7
    (fun a _ n => if a = 1000 ∧ n = 6 then .ok () else .error .Unknown)
    (fun a _ n => if a = 1000 ∧ n = 3 then .ok () else .error .Unknown)).2.2.2
    (by decide)
  exact ⟨by rw [h16.1]; simp, by rw [h32.1]; simp⟩

theorem is_synced_match_error {e : ErrorCode} (he : e ≠ .NotReady)
    {status : Nat} (hq : cuda_error status = .error e) :
    Stream.is_synced status = .error e := by
  unfold Stream.is_synced
  rw [hq]
  cases e <;> first | rfl | exact absurd rfl he

/-- C2: `is_synced` returns `Ok(true)` exactly on native status `0`,
`Ok(false)` exactly on the not-ready status `600`, and for every other
nonzero status returns `Err` of the mapped kind, which is never
`NotReady`. -/
theorem is_synced_spec (status : Nat) :
    (Stream.is_synced status = .ok true ↔ status = 0) ∧
    (Stream.is_synced status = .ok false ↔ status = 600) ∧
    (status ≠ 0 → status ≠ 600 →
      Stream.is_synced status =
        .error ((ErrorCode.fromCode status).getD .Unknown) ∧
      (ErrorCode.fromCode status).getD .Unknown ≠ .NotReady) := by
  by_cases h0 : status = 0
  · subst h0
    exact ⟨by decide, by decide, fun h => absurd rfl h⟩
  · by_cases h600 : status = 600
    · subst h600
      exact ⟨by decide, by decide, fun _ h => absurd rfl h⟩
    · have hne : (ErrorCode.fromCode status).getD .Unknown ≠ .NotReady := by
        cases hfc : ErrorCode.fromCode status with
        | none => decide
        | some e =>
          simp only [Option.getD_some]
          intro heq
          subst heq
          exact h600 (code_of_fromCode hfc).symm
      have herr : cuda_error status =
          .error ((ErrorCode.fromCode status).getD .Unknown) := by
        simp [cuda_error, h0]
      have hmain := is_synced_match_error hne herr
      refine ⟨?_, ?_, fun _ _ => ⟨hmain, hne⟩⟩
      · rw [hmain]; simp [h0]
      · rw [hmain]; simp [h600]

/-- Witness for `is_synced_spec` at the concrete status `700`
(`IllegalAddress`). -/
theorem is_synced_spec_witness :
    Stream.is_synced 700 = .error .IllegalAddress := by
  have h := (is_synced_spec 700).2.2 (by decide) (by decide)
  exact h.1

/-- C9: `sync` empties the pending-store list exactly when the native
synchronize succeeds and returns the error with the stream unchanged when
it fails; no other stream operation (`wait_32/64`, `write_32/64`,
`callback`, `launch`) changes the stream state — and `is_synced` takes the
stream by shared reference, so in the model it does not receive the state
at all. -/
theorem pending_stores_spec :
    (∀ s : Stream, Stream.sync (.ok ()) s = (.ok (), { pendingStores := [] })) ∧
    (∀ (s : Stream) (e : ErrorCode), Stream.sync (.error e) s = (.error e, s)) ∧
    (∀ addr v mode fl native (s : Stream) r s2,
      Stream.wait_32 addr v mode fl native s = .ret (r, s2) → s2 = s) ∧
    (∀ addr v mode fl native (s : Stream) r s2,
      Stream.wait_64 addr v mode fl native s = .ret (r, s2) → s2 = s) ∧
    (∀ addr v nb native (s : Stream) r s2,
      Stream.write_32 addr v nb native s = .ret (r, s2) → s2 = s) ∧
    (∀ addr v nb native (s : Stream) r s2,
      Stream.write_64 addr v nb native s = .ret (r, s2) → s2 = s) ∧
    (∀ cbReg (s : Stream), (Stream.callback cbReg s).2 = s) ∧
    (∀ f gd bd sm ps native (s : Stream),
      (Stream.launch f gd bd sm ps native s).2 = s) := by
  refine ⟨fun s => rfl, fun s e => rfl, ?_, ?_, ?_, ?_, fun cbReg s => rfl,
    fun f gd bd sm ps native s => rfl⟩
  · intro addr v mode fl native s r s2 h
    unfold Stream.wait_32 at h
    split at h <;> simp_all
  · intro addr v mode fl native s r s2 h
    unfold Stream.wait_64 at h
    split at h <;> simp_all
  · intro addr v nb native s r s2 h
    unfold Stream.write_32 at h
    split at h <;> simp_all
  · intro addr v nb native s r s2 h
    unfold Stream.write_64 at h
    split at h <;> simp_all

/-- Witness for `pending_stores_spec`: a concrete stream with one pending
buffer keeps it across a failed sync and a `wait_32`, and drops it on a
successful sync. -/
theorem pending_stores_spec_witness :
    Stream.sync (.ok ()) ⟨[[1, 2]]⟩ = (.ok (), ⟨[]⟩) ∧
    Stream.sync (.error .Unknown) ⟨[[1, 2]]⟩ = (.error .Unknown, ⟨[[1, 2]]⟩) ∧
    (⟨[[1, 2]]⟩ : Stream) = ⟨[[1, 2]]⟩ := by
  refine ⟨pending_stores_spec.1 ⟨[[1, 2]]⟩, pending_stores_spec.2.1 ⟨[[1, 2]]⟩ .Unknown, ?_⟩
  exact pending_stores_spec.2.2.1 ⟨1, 1, 1000, 4⟩ 5 .Eq false
    (fun _ _ _ => .ok ()) ⟨[[1, 2]]⟩ (.ok ()) ⟨[[1, 2]]⟩ (by decide)

/-- C3: the future cell only takes the transitions
`Waiting → Some → Taken`: the completion callback completes the cell only
from `Waiting` and never overwrites `Some` or `Taken`; a poll finding
`Some` swaps the cell to `Taken` and returns the stored value; a poll
finding `Taken` halts with the over-polled panic; and a poll finding
`Waiting` leaves the cell `Waiting`. -/
theorem future_state_machine_spec :
    callbackStep .Waiting = .Some (.ok ()) ∧
    (∀ x, callbackStep (.Some x) = .Some x) ∧
    callbackStep .Taken = .Taken ∧
    (∀ x r, pollStep (.Some x) r = .ret (.Taken, .Ready x)) ∧
    (∀ r, pollStep .Taken r =
      .fatal "over polled CudaFuture (do you need to fuse?)") ∧
    (∀ r, ∃ pr, pollStep .Waiting r = .ret (.Waiting, pr)) :=
  ⟨rfl, fun _ => rfl, rfl, fun _ _ => rfl, fun _ => rfl, fun r => by
    cases r with
    | ok u => exact ⟨.Pending, rfl⟩
    | error e => exact ⟨.Ready (.error e), rfl⟩⟩

mutual

theorem KParam.params_append (p : KParam) (out : List (List Nat)) :
    KParam.params p out = out ++ KParam.params p [] := by
  cases p with
  | arr es => simp only [KParam.params]; exact KParam.paramsSeq_append es out
  | tup es => simp only [KParam.params]; exact KParam.paramsSeq_append es out
  | box inner => simp only [KParam.params]; exact KParam.params_append inner out
  | unit => simp only [KParam.params, List.append_nil]
  | u8 v => simp [KParam.params]
  | u16 v => simp [KParam.params]
  | u32 v => simp [KParam.params]
  | u64 v => simp [KParam.params]
  | usize v => simp [KParam.params]
  | i8 v => simp [KParam.params]
  | i16 v => simp [KParam.params]
  | i32 v => simp [KParam.params]
  | i64 v => simp [KParam.params]
  | f32 bits => simp [KParam.params]
  | f64 bits => simp [KParam.params]
  | devicePtr addr => simp [KParam.params]
  | bytes data => simp [KParam.params]

theorem KParam.paramsSeq_append (es : List KParam) (out : List (List Nat)) :
    KParam.paramsSeq es out = out ++ KParam.paramsSeq es [] := by
  cases es with
  | nil => simp [KParam.paramsSeq]
  | cons e rest =>
    simp only [KParam.paramsSeq]
    rw [KParam.paramsSeq_append rest (KParam.params e out),
        KParam.params_append e out,
        KParam.paramsSeq_append rest (KParam.params e []),
        List.append_assoc]

end

theorem paramsSeq_flat (es : List KParam) :
    KParam.paramsSeq es [] = (es.map (fun e => KParam.params e [])).flatten := by
  induction es with
  | nil => simp [KParam.paramsSeq]
  | cons e rest ih =>
    simp only [KParam.paramsSeq, List.map_cons, List.flatten_cons]
    rw [KParam.paramsSeq_append rest (KParam.params e []), ih]

theorem leBytes_length (n v : Nat) : (leBytes n v).length = n := by
  induction n generalizing v with
  | zero => rfl
  | succ n ih => simp [leBytes, ih]

theorem fromLE_leBytes (n v : Nat) : fromLE (leBytes n v) = v % 256 ^ n := by
  induction n generalizing v with
  | zero => simp [leBytes, fromLE, Nat.mod_one]
  | succ n ih =>
    simp only [leBytes, fromLE, ih]
    rw [pow_succ', Nat.mod_mul]

/-- C8: kernel-parameter serialization is a structure-flattening
homomorphism into little-endian buffers: every fixed-width integer or
float parameter appends exactly one buffer, namely its little-endian byte
representation (whose length is the type's byte width and which rebuilds
the value), and a fixed-size array or a tuple appends exactly the
concatenation, in positional order, of the buffer lists produced by its
elements. -/
theorem kernel_params_flatten_spec :
    (∀ out v, KParam.params (.u8 v) out = out ++ [leBytes 1 v]) ∧
    (∀ out v, KParam.params (.u16 v) out = out ++ [leBytes 2 v]) ∧
    (∀ out v, KParam.params (.u32 v) out = out ++ [leBytes 4 v]) ∧
    (∀ out v, KParam.params (.u64 v) out = out ++ [leBytes 8 v]) ∧
    (∀ out v, KParam.params (.usize v) out = out ++ [leBytes 8 v]) ∧
    (∀ out v, KParam.params (.i8 v) out = out ++ [signedLeBytes 1 v]) ∧
    (∀ out v, KParam.params (.i16 v) out = out ++ [signedLeBytes 2 v]) ∧
    (∀ out v, KParam.params (.i32 v) out = out ++ [signedLeBytes 4 v]) ∧
    (∀ out v, KParam.params (.i64 v) out = out ++ [signedLeBytes 8 v]) ∧
    (∀ out bits, KParam.params (.f32 bits) out = out ++ [leBytes 4 bits]) ∧
    (∀ out bits, KParam.params (.f64 bits) out = out ++ [leBytes 8 bits]) ∧
    (∀ n v, (leBytes n v).length = n ∧ fromLE (leBytes n v) = v % 256 ^ n) ∧
    (∀ w v, (signedLeBytes w v).length = w) ∧
    (∀ out es, KParam.params (.arr es) out =
      out ++ (es.map (fun e => KParam.params e [])).flatten) ∧
    (∀ out es, KParam.params (.tup es) out =
      out ++ (es.map (fun e => KParam.params e [])).flatten) := by
  refine ⟨fun _ _ => by simp [KParam.params], fun _ _ => by simp [KParam.params],
    fun _ _ => by simp [KParam.params], fun _ _ => by simp [KParam.params],
    fun _ _ => by simp [KParam.params], fun _ _ => by simp [KParam.params],
    fun _ _ => by simp [KParam.params], fun _ _ => by simp [KParam.params],
    fun _ _ => by simp [KParam.params], fun _ _ => by simp [KParam.params],
    fun _ _ => by simp [KParam.params],
    fun n v => ⟨leBytes_length n v, fromLE_leBytes n v⟩,
    fun w v => leBytes_length w _, ?_, ?_⟩
  · intro out es
    simp only [KParam.params]
    rw [KParam.paramsSeq_append es out, paramsSeq_flat]
  · intro out es
    simp only [KParam.params]
    rw [KParam.paramsSeq_append es out, paramsSeq_flat]

set_option maxHeartbeats 2000000 in
theorem targetFor_mem {major minor t : Nat} (h : targetFor major minor = some t) :
    (major, minor) ∈ supportedTargets := by
  unfold targetFor at h
  split at h <;> first | exact Option.noConfusion h | decide

/-- C6: `Linker::new` returns the unsupported-version error kind without
invoking the native link-session creation for every compute-capability
pair outside the fixed supported set, and for every pair in the set it
proceeds to the native call with the resolved target. -/
theorem linker_new_target_spec (major minor : Nat)
    (nativeLinkCreate : Nat → CudaResult Unit) :
    ((major, minor) ∉ supportedTargets →
      Linker.new major minor nativeLinkCreate =
        .earlyReturn .UnsupportedPtxVersion) ∧
    ((major, minor) ∈ supportedTargets →
      ∃ t, targetFor major minor = some t ∧
        Linker.new major minor nativeLinkCreate =
          .viaNative (nativeLinkCreate t)) := by
  constructor
  · intro hnm
    cases hfc : targetFor major minor with
    | none => simp [Linker.new, hfc]
    | some t => exact absurd (targetFor_mem hfc) hnm
  · intro hm
    have hall : ∀ p ∈ supportedTargets, (targetFor p.1 p.2).isSome := by decide
    obtain ⟨t, ht⟩ := Option.isSome_iff_exists.mp (hall (major, minor) hm)
    exact ⟨t, ht, by simp [Linker.new, ht]⟩

/-- Witness for `linker_new_target_spec`: the unsupported pair `(4, 0)`
fails early, the supported pair `(8, 6)` reaches the native call. -/
theorem linker_new_target_spec_witness :
    Linker.new 4 0 (fun _ => .ok ()) = .earlyReturn .UnsupportedPtxVersion ∧
    Linker.new 8 6 (fun _ => .ok ()) = .viaNative (.ok ()) := by
  obtain ⟨t, ht, he⟩ :=
    (linker_new_target_spec 8 6 (fun _ => .ok ())).2 (by decide)
  exact ⟨(linker_new_target_spec 4 0 (fun _ => .ok ())).1 (by decide),
    by rw [he]⟩

theorem position_eq_some {l : List Nat} {i : Nat} (p : Nat → Bool)
    (hi : i < l.length) (hzero : p (l.getD i 1) = true)
    (hbefore : ∀ j, j < i → p (l.getD j 1) = false) :
    position p l = some i := by
  induction l generalizing i with
  | nil => simp at hi
  | cons hd tl ih =>
    cases i with
    | zero =>
      simp only [List.getD_cons_zero] at hzero
      simp [position, hzero]
    | succ n =>
      have hhd : p hd = false := by
        have := hbefore 0 (Nat.succ_pos n)
        simpa using this
      have hrec : position p tl = some n := by
        refine ih (by simpa using hi) (by simpa using hzero) ?_
        intro j hj
        have := hbefore (j + 1) (by omega)
        simpa using this
      simp [position, hhd, hrec]

theorem position_eq_none {l : List Nat} (p : Nat → Bool)
    (h : ∀ b ∈ l, p b = false) : position p l = none := by
  induction l with
  | nil => rfl
  | cons hd tl ih =>
    have hhd : p hd = false := h hd (List.mem_cons_self hd tl)
    simp [position, hhd, ih (fun b hb => h b (List.mem_cons_of_mem hd hb))]

/-- C10: when the native query succeeds, `Device::name` returns the lossy
UTF-8 decoding of the buffer bytes strictly before the first NUL byte, and
when none of the 256 bytes is NUL it returns the empty string. -/
theorem device_name_spec (decode : List Nat → String) (buf : List Nat)
    (hlen : buf.length = 256) :
    (∀ i, i < 256 → buf.getD i 1 = 0 → (∀ j, j < i → buf.getD j 1 ≠ 0) →
      Device.name decode buf = decode (buf.take i)) ∧
    ((∀ b ∈ buf, b ≠ 0) → decode [] = "" → Device.name decode buf = "") := by
  constructor
  · intro i hi hz hb
    have hpos : position (fun x => x == 0) buf = some i := by
      refine position_eq_some (fun x => x == 0) (by omega)
        (by show (buf.getD i 1 == 0) = true; rw [hz]; rfl) ?_
      intro j hj
      show (buf.getD j 1 == 0) = false
      exact beq_eq_false_iff_ne.mpr (hb j hj)
    unfold Device.name
    rw [hpos]
    rfl
  · intro hnz hdec
    have hpos : position (fun x => x == 0) buf = none := by
      refine position_eq_none (fun x => x == 0) ?_
      intro b hb
      exact beq_eq_false_iff_ne.mpr (hnz b hb)
    unfold Device.name
    rw [hpos]
    simpa using hdec

set_option maxRecDepth 4000 in
/-- Witness for `device_name_spec`: a buffer starting `72, 105, 0, …`
decodes to the two bytes before the NUL, and an all-ones buffer decodes to
the empty string. -/
theorem device_name_spec_witness :
    Device.name (fun bs => String.mk (bs.map Char.ofNat))
        (72 :: 105 :: List.replicate 254 0) = "Hi" ∧
    Device.name (fun bs => String.mk (bs.map Char.ofNat))
        (List.replicate 256 1) = "" := by
  constructor
  · have h := (device_name_spec (fun bs => String.mk (bs.map Char.ofNat))
      (72 :: 105 :: List.replicate 254 0) (by simp)).1 2 (by omega)
      (by decide) (by decide)
    rw [h]
    decide
  · exact (device_name_spec (fun bs => String.mk (bs.map Char.ofNat))
      (List.replicate 256 1) (by simp)).2
      (by intro b hb; simp at hb; omega) (by decide)

end CudaOxide
